import Mathlib

/-!
# Verification of the coding-agent core (`coding_agent/coding_agent.py`, `coding_agent/shell_logger.py`)

A shallow embedding of the agent driver loop, the two command-execution
backends, and the logging sinks, together with theorems settling the
claims of the specification about them.

Conventions of the embedding:
* The remote model is scripted: a run is driven by a list of `Response`
  values, one consumed per model request (`client.responses.create`).
  Running out of script is the artifact error `scriptExhausted`; every
  claim supplies enough responses.
* Command execution (`subprocess.run` / `sandbox.exec`) is an oracle
  function supplied as a parameter; what the code builds around it
  (argument vectors, working-directory resolution, result packaging)
  is embedded concretely.
* Python exceptions are modelled by `Except` results (strings carry the
  exception message); a sink that may raise is an oracle
  `LogEntry → Option String` (`none` = returned normally, `some e` =
  raised `e`).
-/

namespace CodingAgent

/-- Python truthiness of an optional string: `None` and `""` are falsy. -/
def optTruthy : Option String → Bool
  | none => false
  | some s => s ≠ ""

/-! ## Data model -/

/-- The `action` payload of a `local_shell_call` output item:
`command`, `working_directory`, `env`, `timeout_ms`. -/
structure ShellAction where
  command : List String
  working_directory : Option String
  env : Option (List (String × String))
  timeout_ms : Option Nat
deriving DecidableEq, Repr

/-- One content block of a model message; the driver only ever reads `.text`. -/
structure ContentBlock where
  text : String
deriving DecidableEq, Repr

/-- An item of the `output` list of a model response. `other` stands for any
item whose `type` is neither `local_shell_call` nor `message`
(e.g. reasoning items); the driver never inspects their payload. -/
inductive OutputItem
  | localShellCall (call_id : String) (action : ShellAction)
  | message (role : String) (content : List ContentBlock)
  | other (itemType : String)
deriving DecidableEq, Repr

/-- A model response, reduced to the `output` list the driver reads. -/
structure Response where
  output : List OutputItem
deriving DecidableEq, Repr

/-- `subprocess.CompletedProcess` as the driver consumes it. -/
structure ExecResult where
  returncode : Int
  stdout : String
  stderr : String
deriving DecidableEq, Repr

/-- The structured entries passed to `logger.log`:
`{command, output}` per executed shell call, and the terminal
`{type: final_response, response}`. -/
inductive LogEntry
  | cmdOutput (command : List String) (output : String)
  | finalResponse (response : String)
deriving DecidableEq, Repr

/-- The `local_shell_call_output` item sent back to the model. -/
structure ToolResultItem where
  call_id : String
  output : String
deriving DecidableEq, Repr

/-- Observable events of a run, in order of occurrence: model requests
issued (`client.responses.create`) and entries passed to `logger.log`. -/
inductive Event
  | initialRequest (request : String)
  | toolResultRequest (item : ToolResultItem)
  | logged (entry : LogEntry)
deriving DecidableEq, Repr

/-- Errors a run can surface. `scriptExhausted` is an artifact of scripting
the model: the real loop would issue another model request there. -/
inductive AgentError
  | configError (msg : String)
  | protocolViolation
  | indexError
  | logFailure (msg : String)
  | scriptExhausted
deriving DecidableEq, Repr

/-! ## Driver helpers (`run_coding_agent`) -/

/-- `item.type == "local_shell_call"`. -/
def isShellCall : OutputItem → Bool
  | .localShellCall _ _ => true
  | _ => false

/-- `item.type == "message" and item.role == "assistant"`. -/
def isAssistantMessage : OutputItem → Bool
  | .message role _ => role = "assistant"
  | _ => false

/-- `shell_calls = [item for item in response.output if item.type == "local_shell_call"]`
followed by `shell_calls[0]`, returning its `call_id` and `action`. -/
def firstShellCall (r : Response) : Option (String × ShellAction) :=
  match r.output.filter isShellCall with
  | OutputItem.localShellCall cid a :: _ => some (cid, a)
  | _ => none

/-- `next(item for item in response.output if item.type == "message" and item.role == "assistant")`
then `final_message.content[0].text`. `next` on an exhausted generator
raises (`protocolViolation`); an empty `content` list raises `IndexError`. -/
def finalText (r : Response) : Except AgentError String :=
  match r.output.find? isAssistantMessage with
  | some (OutputItem.message _ (b :: _)) => .ok b.text
  | some (OutputItem.message _ []) => .error .indexError
  | some _ => .error .protocolViolation  -- unreachable: find? only returns messages
  | none => .error .protocolViolation

/-- The `while True` loop of `run_coding_agent`, from a current response
`resp` and the remaining scripted responses. Per iteration, in source
order: filter shell calls (break if none); execute the first call;
build the `local_shell_call_output` item; `logger.log` the
`{command, output}` entry; issue the next model request. After the
break: locate the assistant message, log `final_response`, return its
first text block. -/
def driverLoop (execFn : ShellAction → ExecResult) (logFn : LogEntry → Option String) :
    Response → List Response → List Event × Except AgentError String
  | resp, script =>
    match firstShellCall resp with
    | none =>
      match finalText resp with
      | .error e => ([], .error e)
      | .ok t =>
        let entry := LogEntry.finalResponse t
        match logFn entry with
        | some ex => ([.logged entry], .error (.logFailure ex))
        | none => ([.logged entry], .ok t)
    | some (cid, a) =>
      let completed := execFn a
      let out := completed.stdout ++ completed.stderr
      let entry := LogEntry.cmdOutput a.command out
      match logFn entry with
      | some ex => ([.logged entry], .error (.logFailure ex))
      | none =>
        match script with
        | [] => ([.logged entry, .toolResultRequest ⟨cid, out⟩], .error .scriptExhausted)
        | r2 :: rest =>
          let p := driverLoop execFn logFn r2 rest
          (.logged entry :: .toolResultRequest ⟨cid, out⟩ :: p.1, p.2)

/-! ## Logger selection (`run_coding_agent` preamble) -/

/-- The constructed logger variants. -/
inductive LoggerChoice
  | stdout
  | file (path : String)
  | http (url : String)
  | null
deriving DecidableEq, Repr

/-- `os.environ.get("MODAL_SANDBOX_ID") is not None`. -/
def is_modal_environment (environ : String → Option String) : Bool :=
  (environ "MODAL_SANDBOX_ID").isSome

/-- The conditional default: `if logger is None: logger = "file" if
use_modal or is_modal_environment() else "stdout"`. -/
def defaultLogger (logger : Option String) (use_modal modalEnv : Bool) : String :=
  match logger with
  | none => if use_modal || modalEnv then "file" else "stdout"
  | some l => l

/-- The `if/elif` chain constructing the logger from its name.
(The source also accepts `None` in the null branch, which is unreachable
because the default has already replaced `None` by a string.) -/
def selectLogger (logger : String) (file_logger_path endpoint_url : Option String) :
    Except String LoggerChoice :=
  if logger = "stdout" then .ok .stdout
  else if logger = "file" then
    match file_logger_path with
    | none => .error "file_logger_path is required when using --logger file"
    | some p => .ok (.file p)
  else if logger = "http" then
    match endpoint_url with
    | none => .error "endpoint_url is required when using --logger http"
    | some u => .ok (.http u)
  else if logger = "null" || logger = "none" || logger = "noop" then .ok .null
  else .error ("Invalid logger: " ++ logger)

/-- `run_coding_agent`: select the logger (raising a configuration error
before any model call), then issue the initial request and run the loop.
`sinkOf` gives the sink behavior of each constructed logger variant
(`none` = the `log` call returned, `some e` = it raised `e`). -/
def run_coding_agent (execFn : ShellAction → ExecResult)
    (sinkOf : LoggerChoice → LogEntry → Option String)
    (request : String) (logger : Option String) (use_modal : Bool)
    (environ : String → Option String)
    (file_logger_path endpoint_url : Option String)
    (script : List Response) : List Event × Except AgentError String :=
  match selectLogger (defaultLogger logger use_modal (is_modal_environment environ))
      file_logger_path endpoint_url with
  | .error m => ([], .error (.configError m))
  | .ok lk =>
    match script with
    | [] => ([.initialRequest request], .error .scriptExhausted)
    | r :: rest =>
      let p := driverLoop execFn (sinkOf lk) r rest
      (.initialRequest request :: p.1, p.2)

/-- A sink that never raises. -/
def noFailLog : LogEntry → Option String := fun _ => none

/-- The two events one loop iteration produces for a response whose first
shell call is executed: its log entry, then the tool-result request. -/
def stepEvents (execFn : ShellAction → ExecResult) (r : Response) : List Event :=
  match firstShellCall r with
  | some (cid, a) =>
    let c := execFn a
    [.logged (.cmdOutput a.command (c.stdout ++ c.stderr)),
     .toolResultRequest ⟨cid, c.stdout ++ c.stderr⟩]
  | none => []

/-! ## Driver lemmas -/

theorem firstShellCall_eq_none_iff (r : Response) :
    firstShellCall r = none ↔ r.output.filter isShellCall = [] := by
  unfold firstShellCall
  rcases h : r.output.filter isShellCall with _ | ⟨x, xs⟩
  · simp
  · have hx : isShellCall x := List.of_mem_filter (h ▸ List.mem_cons_self x xs)
    cases x with
    | localShellCall cid a => simp
    | message role c => simp [isShellCall] at hx
    | other t => simp [isShellCall] at hx

/-- The loop, upon breaking out with a terminal response, logs the
final-response entry and returns the text. -/
theorem driverLoop_done (execFn : ShellAction → ExecResult)
    (logFn : LogEntry → Option String) (resp : Response) (script : List Response)
    (t : String) (h : firstShellCall resp = none) (ht : finalText resp = Except.ok t)
    (hl : logFn (LogEntry.finalResponse t) = none) :
    driverLoop execFn logFn resp script =
      ([Event.logged (LogEntry.finalResponse t)], Except.ok t) := by
  rw [driverLoop]
  simp [h, ht, hl]

/-- The loop, upon breaking out with a response whose terminal-message
lookup fails, surfaces that error with no log entry. -/
theorem driverLoop_err (execFn : ShellAction → ExecResult)
    (logFn : LogEntry → Option String) (resp : Response) (script : List Response)
    (e : AgentError) (h : firstShellCall resp = none)
    (ht : finalText resp = Except.error e) :
    driverLoop execFn logFn resp script = ([], Except.error e) := by
  rw [driverLoop]
  simp [h, ht]

/-- The loop, run on a script of responses that each carry a shell call,
followed by a terminal response, produces exactly the per-call events in
order and then the final-response entry, and returns the terminal text. -/
theorem driverLoop_run (execFn : ShellAction → ExecResult)
    (logFn : LogEntry → Option String) (hlog : ∀ e, logFn e = none)
    (rs : List Response) (final : Response) (t : String) :
    (∀ s ∈ rs, (firstShellCall s).isSome) →
    firstShellCall final = none →
    finalText final = Except.ok t →
    ∀ (r : Response) (rest : List Response), r :: rest = rs ++ [final] →
    driverLoop execFn logFn r rest =
      ((rs.map (stepEvents execFn)).flatten ++ [Event.logged (LogEntry.finalResponse t)],
        Except.ok t) := by
  induction rs with
  | nil =>
    intro _ hfin ht r rest heq
    obtain ⟨rfl, rfl⟩ : final = r ∧ [] = rest := by simpa using heq.symm
    rw [driverLoop_done execFn logFn _ _ t hfin ht (hlog _)]
    simp
  | cons r0 rs' ih =>
    intro hcalls hfin ht r rest heq
    obtain ⟨rfl, rfl⟩ : r0 = r ∧ rs' ++ [final] = rest := by simpa using heq.symm
    obtain ⟨⟨cid, a⟩, hfc⟩ := Option.isSome_iff_exists.mp (hcalls r0 (List.mem_cons_self _ _))
    obtain ⟨r2, rest2, h2⟩ : ∃ r2 rest2, rs' ++ [final] = r2 :: rest2 := by
      cases rs' with
      | nil => exact ⟨final, [], rfl⟩
      | cons x xs => exact ⟨x, xs ++ [final], rfl⟩
    have IH := ih (fun s hs => hcalls s (List.mem_cons_of_mem _ hs)) hfin ht r2 rest2 h2.symm
    rw [driverLoop]
    simp [hfc, hlog, h2, IH, stepEvents]

/-- C1: in a run of `run_coding_agent` whose model responses are N
shell-call turns followed by a terminal assistant message, the event
trace is exactly: the initial model request, then per call its
`{command, output}` log entry immediately followed by the next model
request, then exactly one `final_response` entry last (after no shell
call is pending); the run returns the first text block of the
terminal message verbatim. -/
theorem c1_run_trace (execFn : ShellAction → ExecResult)
    (sinkOf : LoggerChoice → LogEntry → Option String)
    (request : String) (logger : Option String) (use_modal : Bool)
    (environ : String → Option String) (fp u : Option String) (lk : LoggerChoice)
    (hsel : selectLogger (defaultLogger logger use_modal (is_modal_environment environ))
              fp u = .ok lk)
    (hsink : ∀ e, sinkOf lk e = none)
    (rs : List Response) (final : Response) (t : String)
    (hcalls : ∀ s ∈ rs, (firstShellCall s).isSome)
    (hfin : final.output.filter isShellCall = [])
    (ht : finalText final = Except.ok t) :
    run_coding_agent execFn sinkOf request logger use_modal environ fp u (rs ++ [final]) =
      (Event.initialRequest request ::
        ((rs.map (stepEvents execFn)).flatten ++ [Event.logged (LogEntry.finalResponse t)]),
       Except.ok t) := by
  have hfin' : firstShellCall final = none := (firstShellCall_eq_none_iff final).mpr hfin
  obtain ⟨r, rest, h2⟩ : ∃ r rest, rs ++ [final] = r :: rest := by
    cases rs with
    | nil => exact ⟨final, [], rfl⟩
    | cons x xs => exact ⟨x, xs ++ [final], rfl⟩
  have hd := driverLoop_run execFn (sinkOf lk) hsink rs final t hcalls hfin' ht r rest h2.symm
  rw [run_coding_agent]
  simp [hsel, h2, hd]

/-- C1 witness: the scenario of the spec — one `ls` call producing
`a.txt\n`, then a terminal assistant message `Done.`. -/
theorem c1_run_trace_witness :
    (∀ s ∈ [Response.mk [OutputItem.localShellCall "call_1"
        ⟨["ls"], none, none, none⟩]], (firstShellCall s).isSome) ∧
    (Response.mk [OutputItem.message "assistant" [⟨"Done."⟩]]).output.filter isShellCall = [] ∧
    finalText (Response.mk [OutputItem.message "assistant" [⟨"Done."⟩]]) = Except.ok "Done." ∧
    run_coding_agent (fun _ => ⟨0, "a.txt\n", ""⟩) (fun _ => noFailLog) "list files"
        (some "stdout") false (fun _ => none) none none
        ([Response.mk [OutputItem.localShellCall "call_1" ⟨["ls"], none, none, none⟩]]
          ++ [Response.mk [OutputItem.message "assistant" [⟨"Done."⟩]]]) =
      (Event.initialRequest "list files" ::
        (([Response.mk [OutputItem.localShellCall "call_1" ⟨["ls"], none, none, none⟩]].map
            (stepEvents (fun _ => ⟨0, "a.txt\n", ""⟩))).flatten
          ++ [Event.logged (LogEntry.finalResponse "Done.")]),
       Except.ok "Done.") :=
  ⟨by decide, by decide, rfl,
   c1_run_trace (fun _ => ⟨0, "a.txt\n", ""⟩) (fun _ => noFailLog) "list files"
     (some "stdout") false (fun _ => none) none none LoggerChoice.stdout rfl
     (fun _ => rfl) _ _ "Done." (by decide) (by decide) rfl⟩

/-- C2: for an executed shell call, the tool-result item sent back to
the model carries exactly the `call_id` the model supplied and an
`output` equal to the stdout of the command followed by its stderr, and the
log entry emitted for the call carries that same output string. -/
theorem c2_tool_result_correlation (execFn : ShellAction → ExecResult)
    (r : Response) (script : List Response) (cid : String) (a : ShellAction)
    (h : firstShellCall r = some (cid, a)) :
    ∃ rest res,
      driverLoop execFn noFailLog r script =
        (Event.logged (LogEntry.cmdOutput a.command ((execFn a).stdout ++ (execFn a).stderr)) ::
         Event.toolResultRequest ⟨cid, (execFn a).stdout ++ (execFn a).stderr⟩ :: rest, res) := by
  cases script with
  | nil =>
    refine ⟨[], .error .scriptExhausted, ?_⟩
    rw [driverLoop]
    simp [h, noFailLog]
  | cons r2 rest2 =>
    refine ⟨(driverLoop execFn noFailLog r2 rest2).1,
            (driverLoop execFn noFailLog r2 rest2).2, ?_⟩
    rw [driverLoop]
    simp [h, noFailLog]

/-- C2 witness: a concrete call with id `call_7` and output streams
`out` and `err`. -/
theorem c2_tool_result_correlation_witness :
    firstShellCall (Response.mk [OutputItem.localShellCall "call_7"
        ⟨["echo", "hi"], none, none, none⟩]) = some ("call_7", ⟨["echo", "hi"], none, none, none⟩) ∧
    ∃ rest res,
      driverLoop (fun _ => ⟨0, "out", "err"⟩) noFailLog
          (Response.mk [OutputItem.localShellCall "call_7" ⟨["echo", "hi"], none, none, none⟩]) [] =
        (Event.logged (LogEntry.cmdOutput ["echo", "hi"]
            (ExecResult.stdout ⟨0, "out", "err"⟩ ++ ExecResult.stderr ⟨0, "out", "err"⟩)) ::
         Event.toolResultRequest ⟨"call_7",
            ExecResult.stdout ⟨0, "out", "err"⟩ ++ ExecResult.stderr ⟨0, "out", "err"⟩⟩ :: rest,
         res) :=
  ⟨by decide,
   c2_tool_result_correlation (fun _ => ⟨0, "out", "err"⟩) _ [] "call_7"
     ⟨["echo", "hi"], none, none, none⟩ (by decide)⟩

/-- C5: if a model response contains no shell-call item and no assistant
message, `run_coding_agent` fails with the protocol-violation error,
returns no result, and the trace contains no `final_response` entry
(indeed no log entry at all after the initial request). -/
theorem c5_protocol_violation (execFn : ShellAction → ExecResult)
    (sinkOf : LoggerChoice → LogEntry → Option String)
    (request : String) (r : Response) (script : List Response)
    (hnc : r.output.filter isShellCall = [])
    (hnm : r.output.find? isAssistantMessage = none) :
    run_coding_agent execFn sinkOf request (some "stdout") false (fun _ => none)
        none none (r :: script) =
      ([Event.initialRequest request], Except.error AgentError.protocolViolation) := by
  have hfc : firstShellCall r = none := (firstShellCall_eq_none_iff r).mpr hnc
  have hft : finalText r = Except.error AgentError.protocolViolation := by
    rw [finalText, hnm]
  have hd := driverLoop_err execFn (sinkOf .stdout) r script .protocolViolation hfc hft
  rw [run_coding_agent]
  simp [defaultLogger, selectLogger, hd]

/-- C5 witness: a response holding only a reasoning item. -/
theorem c5_protocol_violation_witness :
    (Response.mk [OutputItem.other "reasoning"]).output.filter isShellCall = [] ∧
    (Response.mk [OutputItem.other "reasoning"]).output.find? isAssistantMessage = none ∧
    run_coding_agent (fun _ => ⟨0, "", ""⟩) (fun _ => noFailLog) "do it" (some "stdout") false
        (fun _ => none) none none [Response.mk [OutputItem.other "reasoning"]] =
      ([Event.initialRequest "do it"], Except.error AgentError.protocolViolation) :=
  ⟨by decide, by decide,
   c5_protocol_violation (fun _ => ⟨0, "", ""⟩) (fun _ => noFailLog) "do it"
     (Response.mk [OutputItem.other "reasoning"]) [] (by decide) (by decide)⟩

/-- C6: with no explicit logger choice, unattended (modal) mode or the
headless-environment signal defaults to the file logger — and a missing
file path is then a configuration error surfaced with no model request
issued; otherwise the default is the stdout logger; an invalid logger
name likewise errors with no model request issued. -/
theorem c6_logger_selection_policy (execFn : ShellAction → ExecResult)
    (sinkOf : LoggerChoice → LogEntry → Option String)
    (request : String) (environ : String → Option String) (use_modal : Bool)
    (u : Option String) (script : List Response) :
    ((use_modal || is_modal_environment environ) = true →
        defaultLogger none use_modal (is_modal_environment environ) = "file"
      ∧ run_coding_agent execFn sinkOf request none use_modal environ none u script
          = ([], .error (.configError "file_logger_path is required when using --logger file"))
      ∧ ∀ p : String, selectLogger "file" (some p) u = .ok (.file p))
    ∧ ((use_modal || is_modal_environment environ) = false →
        defaultLogger none use_modal (is_modal_environment environ) = "stdout"
      ∧ selectLogger (defaultLogger none use_modal (is_modal_environment environ)) none u
          = .ok .stdout)
    ∧ (∀ name : String,
        name ∉ (["stdout", "file", "http", "null", "none", "noop"] : List String) →
        run_coding_agent execFn sinkOf request (some name) use_modal environ none u script
          = ([], .error (.configError ("Invalid logger: " ++ name)))) := by
  refine ⟨fun h => ⟨?_, ?_, ?_⟩, fun h => ⟨?_, ?_⟩, fun name hname => ?_⟩
  · simp [defaultLogger, h]
  · rw [run_coding_agent]
    simp [defaultLogger, selectLogger, h]
  · intro p
    simp [selectLogger]
  · simp [defaultLogger, h]
  · simp [defaultLogger, selectLogger, h]
  · simp only [List.mem_cons, List.not_mem_nil, or_false, not_or] at hname
    obtain ⟨h1, h2, h3, h4, h5, h6⟩ := hname
    rw [run_coding_agent]
    simp [defaultLogger, selectLogger, h1, h2, h3, h4, h5, h6]

/-- C6 witness: unattended mode with no file path errors before any
model call; an invalid logger name errors before any model call. -/
theorem c6_logger_selection_policy_witness :
    ((true || is_modal_environment (fun _ => none)) = true ∧
      run_coding_agent (fun _ => ⟨0, "", ""⟩) (fun _ => noFailLog) "go" none true
          (fun _ => none) none none []
        = ([], .error (.configError "file_logger_path is required when using --logger file")))
    ∧ ("bogus" ∉ (["stdout", "file", "http", "null", "none", "noop"] : List String) ∧
      run_coding_agent (fun _ => ⟨0, "", ""⟩) (fun _ => noFailLog) "go" (some "bogus") true
          (fun _ => none) none none []
        = ([], .error (.configError ("Invalid logger: " ++ "bogus")))) :=
  ⟨⟨by decide,
    ((c6_logger_selection_policy (fun _ => ⟨0, "", ""⟩) (fun _ => noFailLog) "go"
      (fun _ => none) true none []).1 (by decide)).2.1⟩,
   ⟨by decide,
    (c6_logger_selection_policy (fun _ => ⟨0, "", ""⟩) (fun _ => noFailLog) "go"
      (fun _ => none) true none []).2.2 "bogus" (by decide)⟩⟩

/-! ## Command-execution backends (`docker_exec`, `modal_exec`) -/

/-- Python `s.startswith("/")`. -/
def startsWithSlash (s : String) : Bool := s.data.head? = some '/'

/-- Python `s.endswith("/")`. -/
def endsWithSlash (s : String) : Bool := s.data.getLast? = some '/'

/-- POSIX `os.path.join` restricted to two components: an absolute second
component discards the first; otherwise the components are joined with a
separating slash unless the first already ends in one (or is empty). -/
def os_path_join (a b : String) : String :=
  if startsWithSlash b then b
  else if a = "" || endsWithSlash a then a ++ b
  else a ++ "/" ++ b

/-- The working-directory resolution of `docker_exec`:
`root_dir = "/workspace"; cwd = os.path.join(root_dir, cwd) if cwd else root_dir`
(Python truthiness: `None` and `""` both fall to the default root). -/
def docker_resolve_cwd (cwd : Option String) : String :=
  if optTruthy cwd then os_path_join "/workspace" (cwd.getD "") else "/workspace"

/-- The full `docker exec` argument vector built by `docker_exec`:
`["docker", "exec", "-w", cwd]`, then `["-e", key + "=" + value]` per
environment entry (skipped entirely when `env` is falsy, i.e. `None` or
empty), then the container name and the command words. -/
def docker_exec_argv (container : String) (cmd : List String) (cwd : Option String)
    (env : Option (List (String × String))) : List String :=
  ["docker", "exec", "-w", docker_resolve_cwd cwd]
    ++ (match env with
        | some kvs => (kvs.map (fun kv => ["-e", kv.1 ++ "=" ++ kv.2])).flatten
        | none => [])
    ++ [container] ++ cmd

/-- What `sandbox.exec` hands back in `modal_exec`: possibly-absent
stdout/stderr pipes (`result.stdout.read() if result.stdout else ""`). -/
structure SandboxResult where
  hasStdout : Bool
  stdoutText : String
  hasStderr : Bool
  stderrText : String
deriving DecidableEq, Repr

/-- The command actually dispatched by `modal_exec`: with a truthy
working directory the single shell string
`"cd " ++ cwd ++ " && " ++ " ".join(cmd)` under `bash -c`; otherwise the
word list unchanged. -/
def modal_full_cmd (cmd : List String) (cwd : Option String) : List String :=
  if optTruthy cwd then
    ["bash", "-c", "cd " ++ cwd.getD "" ++ " && " ++ String.intercalate " " cmd]
  else cmd

/-- `modal_exec`: build the full command, run it in the sandbox, read the
pipes, and report a fixed `returncode = 0` (Modal provides no exit
codes). The `env` and `timeout_ms` parameters are accepted but unused. -/
def modal_exec (sandboxExec : List String → SandboxResult) (cmd : List String)
    (cwd : Option String) (env : Option (List (String × String)))
    (timeout_ms : Option Nat) : ExecResult :=
  let result := sandboxExec (modal_full_cmd cmd cwd)
  { returncode := 0,
    stdout := if result.hasStdout then result.stdoutText else "",
    stderr := if result.hasStderr then result.stderrText else "" }

/-- C3 counterexample: the claim quantifies over every supplied
working-directory string, but an absolute one replaces the root instead
of being appended to it — `working_directory = "/tmp"` resolves to
`"/tmp"`, not `<root>/<wd>`. -/
theorem c3_counterexample :
    docker_resolve_cwd (some "/tmp") = "/tmp" ∧
    docker_resolve_cwd (some "/tmp") ≠ "/workspace" ++ "/" ++ "/tmp" := by
  constructor
  · decide
  · decide

/-- C3 (amended): for a non-empty working-directory string that is not
absolute, the container backend resolves the effective directory to
`/workspace/<wd>`; with no working directory (or an empty one) it
resolves to `/workspace`; an absolute working directory instead replaces
the root, per `os.path.join`. -/
theorem c3_cwd_resolution (w : String) (hne : w ≠ "") (habs : startsWithSlash w = false) :
    docker_resolve_cwd (some w) = "/workspace/" ++ w
    ∧ docker_resolve_cwd none = "/workspace"
    ∧ ∀ v : String, startsWithSlash v = true → docker_resolve_cwd (some v) = v := by
  refine ⟨?_, rfl, ?_⟩
  · have h2 : endsWithSlash "/workspace" = false := by decide
    have h3 : ("/workspace" : String) ++ "/" = "/workspace/" := by decide
    calc docker_resolve_cwd (some w) = "/workspace" ++ "/" ++ w := by
          simp [docker_resolve_cwd, optTruthy, os_path_join, hne, habs, h2]
      _ = "/workspace/" ++ w := by rw [h3]
  · intro v hv
    have hve : v ≠ "" := by
      intro h
      rw [h] at hv
      exact absurd hv (by decide)
    simp [docker_resolve_cwd, optTruthy, os_path_join, hve, hv]

/-- C3 witness: the example given by the spec, `working_directory = "sub"`. -/
theorem c3_cwd_resolution_witness :
    ("sub" ≠ "" ∧ startsWithSlash "sub" = false) ∧
    (docker_resolve_cwd (some "sub") = "/workspace/" ++ "sub"
      ∧ docker_resolve_cwd none = "/workspace"
      ∧ ∀ v : String, startsWithSlash v = true → docker_resolve_cwd (some v) = v) :=
  ⟨⟨by decide, by decide⟩, c3_cwd_resolution "sub" (by decide) (by decide)⟩

/-- C4: the result of the sandbox backend is independent of the
`environment` and `timeout_ms` fields (neither reaches the executed
process), and its exit code is the fixed placeholder `0` whatever the
command did. -/
theorem c4_modal_ignores_env_timeout (sandboxExec : List String → SandboxResult)
    (cmd : List String) (cwd : Option String)
    (env env' : Option (List (String × String))) (t t' : Option Nat) :
    modal_exec sandboxExec cmd cwd env t = modal_exec sandboxExec cmd cwd env' t'
    ∧ (modal_exec sandboxExec cmd cwd env t).returncode = 0 := by
  exact ⟨rfl, rfl⟩

/-- C10: for every command and every (truthy) supplied working
directory, the sandbox backend executes the single string
`"cd <wd> && <words joined by single spaces>"` under `bash -c`; without
a working directory the word list is passed through unchanged as
distinct arguments; consequently any two word lists that join to the
same string — such as a command whose individual words contain
whitespace and its space-split counterpart — are dispatched identically
whenever a working directory is supplied. -/
theorem c10_modal_cwd_word_collapse (cmd : List String) (w : String) (hw : w ≠ "") :
    modal_full_cmd cmd (some w)
      = ["bash", "-c", "cd " ++ w ++ " && " ++ String.intercalate " " cmd]
    ∧ modal_full_cmd cmd none = cmd
    ∧ (∀ cmd2 : List String, String.intercalate " " cmd2 = String.intercalate " " cmd →
        modal_full_cmd cmd2 (some w) = modal_full_cmd cmd (some w)) := by
  refine ⟨?_, rfl, ?_⟩
  · simp [modal_full_cmd, optTruthy, hw]
  · intro cmd2 hj
    simp [modal_full_cmd, optTruthy, hw, hj]

/-- C10 witness: `["echo", "a b"]` and `["echo", "a", "b"]` differ as
word lists yet join to the same string, so with working directory `sub`
they are dispatched as the same `bash -c` string, while without one the
original words survive as distinct arguments. -/
theorem c10_modal_cwd_word_collapse_witness :
    ("sub" ≠ ""
      ∧ (["echo", "a b"] : List String) ≠ ["echo", "a", "b"]
      ∧ String.intercalate " " ["echo", "a", "b"] = String.intercalate " " ["echo", "a b"])
    ∧ (modal_full_cmd ["echo", "a b"] (some "sub")
        = ["bash", "-c", "cd " ++ "sub" ++ " && " ++ String.intercalate " " ["echo", "a b"]]
      ∧ modal_full_cmd ["echo", "a b"] none = ["echo", "a b"]
      ∧ (∀ cmd2 : List String,
          String.intercalate " " cmd2 = String.intercalate " " ["echo", "a b"] →
          modal_full_cmd cmd2 (some "sub") = modal_full_cmd ["echo", "a b"] (some "sub"))) :=
  ⟨⟨by decide, by decide, by decide⟩,
   c10_modal_cwd_word_collapse ["echo", "a b"] "sub" (by decide)⟩

/-! ## JSON encoding (`json.dumps(msg, ensure_ascii=False)`)

The value universe covers everything this program ever logs: strings,
integers, arrays and objects. -/

/-- A JSON value as `json.dumps` receives it from the loggers. -/
inductive Json
  | str (s : String)
  | num (n : Int)
  | arr (xs : List Json)
  | obj (kvs : List (String × Json))

/-- Opening brace character. -/
def lbrace : Char := Char.ofNat 123

/-- Closing brace character. -/
def rbrace : Char := Char.ofNat 125

/-- Decimal digits of a natural number, most significant first. -/
def natToChars (n : Nat) : List Char :=
  if n < 10 then [Nat.digitChar n]
  else natToChars (n / 10) ++ [Nat.digitChar (n % 10)]
decreasing_by exact Nat.div_lt_self (by omega) (by omega)

/-- Python `repr` of an integer, as emitted by `json.dumps`. -/
def intChars (n : Int) : List Char :=
  if n < 0 then '-' :: natToChars n.natAbs else natToChars n.natAbs

/-- The escaping `json.dumps` applies to one character of a string with
`ensure_ascii=False`: the two-character escapes for quote, backslash and
the named control characters, `\u00XX` for the remaining control
characters, and every other character unchanged. -/
def escChar (c : Char) : List Char :=
  if c = '"' then ['\\', '"']
  else if c = '\\' then ['\\', '\\']
  else if c = '\n' then ['\\', 'n']
  else if c = '\r' then ['\\', 'r']
  else if c = '\t' then ['\\', 't']
  else if c = Char.ofNat 8 then ['\\', 'b']
  else if c = Char.ofNat 12 then ['\\', 'f']
  else if c.toNat < 32 then
    ['\\', 'u', '0', '0', Nat.digitChar (c.toNat / 16), Nat.digitChar (c.toNat % 16)]
  else [c]

/-- The body of a JSON string literal. -/
def escapeChars (cs : List Char) : List Char := (cs.map escChar).flatten

mutual

/-- `json.dumps` with its default separators `", "` and `": "` and
`ensure_ascii=False`, as the character list of the encoding. -/
def dumpsChars : Json → List Char
  | .str s => '"' :: (escapeChars s.data ++ ['"'])
  | .num n => intChars n
  | .arr xs => '[' :: (dumpsArr xs ++ [']'])
  | .obj kvs => lbrace :: (dumpsObj kvs ++ [rbrace])

/-- Comma-separated encodings of array elements. -/
def dumpsArr : List Json → List Char
  | [] => []
  | [x] => dumpsChars x
  | x :: y :: xs => dumpsChars x ++ (',' :: ' ' :: dumpsArr (y :: xs))

/-- Comma-separated `"key": value` pairs of an object. -/
def dumpsObj : List (String × Json) → List Char
  | [] => []
  | [kv] => kvChars kv
  | kv :: kv2 :: xs => kvChars kv ++ (',' :: ' ' :: dumpsObj (kv2 :: xs))

/-- One `"key": value` pair. -/
def kvChars : String × Json → List Char
  | (k, v) => '"' :: (escapeChars k.data ++ ('"' :: ':' :: ' ' :: dumpsChars v))

end

/-- `json.dumps(msg, ensure_ascii=False)`. -/
def json_dumps (msg : Json) : String := String.mk (dumpsChars msg)

/-- The structured entries of §3 as the JSON values the loggers receive. -/
def LogEntry.toJson : LogEntry → Json
  | .cmdOutput c o => .obj [("command", .arr (c.map .str)), ("output", .str o)]
  | .finalResponse r => .obj [("type", .str "final_response"), ("response", .str r)]

/-! ### The encoding never contains a raw newline, so each entry is one line -/

theorem digitChar_ne_nl (n : Nat) (h : n < 16) : Nat.digitChar n ≠ '\n' := by
  revert h
  revert n
  decide

theorem natToChars_no_nl (n : Nat) : '\n' ∉ natToChars n := by
  induction n using Nat.strong_induction_on with
  | _ n ih =>
    rw [natToChars]
    split
    · simp only [List.mem_singleton]
      exact fun h => digitChar_ne_nl n (by omega) h.symm
    · intro h
      rcases List.mem_append.mp h with h1 | h1
      · exact ih (n / 10) (Nat.div_lt_self (by omega) (by omega)) h1
      · simp only [List.mem_singleton] at h1
        exact digitChar_ne_nl (n % 10) (by omega) h1.symm

theorem intChars_no_nl (n : Int) : '\n' ∉ intChars n := by
  rw [intChars]
  split
  · intro h
    rcases List.mem_cons.mp h with h1 | h1
    · exact absurd h1 (by decide)
    · exact natToChars_no_nl _ h1
  · exact natToChars_no_nl _

theorem escChar_no_nl (c : Char) : '\n' ∉ escChar c := by
  rw [escChar]
  split_ifs with h1 h2 h3 h4 h5 h6 h7 h8
  · decide
  · decide
  · decide
  · decide
  · decide
  · decide
  · decide
  · intro h
    simp only [List.mem_cons, List.not_mem_nil, or_false] at h
    rcases h with h | h | h | h | h | h
    · exact absurd h (by decide)
    · exact absurd h (by decide)
    · exact absurd h (by decide)
    · exact absurd h (by decide)
    · exact digitChar_ne_nl (c.toNat / 16) (by omega) h.symm
    · exact digitChar_ne_nl (c.toNat % 16) (by omega) h.symm
  · intro h
    simp only [List.mem_singleton] at h
    exact h3 h.symm

theorem escapeChars_no_nl (cs : List Char) : '\n' ∉ escapeChars cs := by
  induction cs with
  | nil => simp [escapeChars]
  | cons c cs ih =>
    rw [escapeChars] at ih ⊢
    simp only [List.map_cons, List.flatten_cons, List.mem_append]
    rintro (h | h)
    · exact escChar_no_nl c h
    · exact ih h

mutual

theorem dumpsChars_no_nl : ∀ j : Json, '\n' ∉ dumpsChars j
  | .str s => by
    rw [dumpsChars]
    intro h
    rcases List.mem_cons.mp h with h1 | h1
    · exact absurd h1 (by decide)
    · rcases List.mem_append.mp h1 with h2 | h2
      · exact escapeChars_no_nl s.data h2
      · exact absurd h2 (by decide)
  | .num n => by
    rw [dumpsChars]
    exact intChars_no_nl n
  | .arr xs => by
    rw [dumpsChars]
    intro h
    rcases List.mem_cons.mp h with h1 | h1
    · exact absurd h1 (by decide)
    · rcases List.mem_append.mp h1 with h2 | h2
      · exact dumpsArr_no_nl xs h2
      · exact absurd h2 (by decide)
  | .obj kvs => by
    rw [dumpsChars]
    intro h
    rcases List.mem_cons.mp h with h1 | h1
    · exact absurd h1 (by decide)
    · rcases List.mem_append.mp h1 with h2 | h2
      · exact dumpsObj_no_nl kvs h2
      · exact absurd h2 (by decide)

theorem dumpsArr_no_nl : ∀ xs : List Json, '\n' ∉ dumpsArr xs
  | [] => by rw [dumpsArr]; simp
  | [x] => by rw [dumpsArr]; exact dumpsChars_no_nl x
  | x :: y :: xs => by
    rw [dumpsArr]
    intro h
    rcases List.mem_append.mp h with h1 | h1
    · exact dumpsChars_no_nl x h1
    · rcases List.mem_cons.mp h1 with h2 | h2
      · exact absurd h2 (by decide)
      · rcases List.mem_cons.mp h2 with h3 | h3
        · exact absurd h3 (by decide)
        · exact dumpsArr_no_nl (y :: xs) h3

theorem dumpsObj_no_nl : ∀ kvs : List (String × Json), '\n' ∉ dumpsObj kvs
  | [] => by rw [dumpsObj]; simp
  | [kv] => by rw [dumpsObj]; exact kvChars_no_nl kv
  | kv :: kv2 :: xs => by
    rw [dumpsObj]
    intro h
    rcases List.mem_append.mp h with h1 | h1
    · exact kvChars_no_nl kv h1
    · rcases List.mem_cons.mp h1 with h2 | h2
      · exact absurd h2 (by decide)
      · rcases List.mem_cons.mp h2 with h3 | h3
        · exact absurd h3 (by decide)
        · exact dumpsObj_no_nl (kv2 :: xs) h3

theorem kvChars_no_nl : ∀ kv : String × Json, '\n' ∉ kvChars kv
  | (k, v) => by
    rw [kvChars]
    intro h
    rcases List.mem_cons.mp h with h1 | h1
    · exact absurd h1 (by decide)
    · rcases List.mem_append.mp h1 with h2 | h2
      · exact escapeChars_no_nl k.data h2
      · rcases List.mem_cons.mp h2 with h3 | h3
        · exact absurd h3 (by decide)
        · rcases List.mem_cons.mp h3 with h4 | h4
          · exact absurd h4 (by decide)
          · rcases List.mem_cons.mp h4 with h5 | h5
            · exact absurd h5 (by decide)
            · exact dumpsChars_no_nl v h5

end

/-! ## Logging sinks (`shell_logger.py`) -/

/-- Position just past the last `/` of a path, `0` when there is none
(`p.rfind("/") + 1` of `posixpath.dirname`). -/
def slashCut : List Char → Nat
  | [] => 0
  | c :: cs => if slashCut cs > 0 then slashCut cs + 1 else if c = '/' then 1 else 0

/-- `posixpath.dirname`: everything before the last `/`, with trailing
slashes stripped unless the head is all slashes. -/
def os_path_dirname (p : String) : String :=
  let head := p.data.take (slashCut p.data)
  if head ≠ [] ∧ ¬ head.all (· = '/') then
    String.mk ((head.reverse.dropWhile (· = '/')).reverse)
  else String.mk head

/-- One line printed to standard output: plain text, or the fallback
the print of the message prefixed by an error line, rendering the
entry itself (via Python `repr`, whose exact text we leave abstract). -/
inductive ConsoleLine
  | text (s : String)
  | entryFallback (msg : Json)

/-- The observable state `FileLogger.log` touches: the set of existing
directories, the chunks appended to the log file by each `f.write` (one
scoped open/write/close per call), and standard output. -/
structure LogFS where
  dirs : List String
  writes : List String
  console : List ConsoleLine

/-- `FileLogger` holds the target path. -/
structure FileLogger where
  file_path : String

/-- `FileLogger.log`: inside the `try`, compute `os.path.dirname`, create
the directory if it is non-empty and missing (`os.makedirs`), and append
`json.dumps(msg, ensure_ascii=False) + "\n"` to the file. `writeOk`
models whether the block raised; on failure the `except` clause prints
the error and the entry to standard output and returns normally (the
partial effects of a failed block are not a concern of the claims, so a failing
call leaves the file state unchanged). -/
def FileLogger.log (l : FileLogger) (msg : Json) (writeOk : Bool) (st : LogFS) : LogFS :=
  if writeOk then
    let directory := os_path_dirname l.file_path
    let st1 := if directory ≠ "" ∧ directory ∉ st.dirs then
        { st with dirs := st.dirs ++ [directory] }
      else st
    { st1 with writes := st1.writes ++ [json_dumps msg ++ "\n"] }
  else
    { st with console := st.console ++
        [ConsoleLine.text ("Error writing to log file " ++ l.file_path),
         ConsoleLine.entryFallback msg] }

/-- C7: writing two entries to a fresh path appends exactly two chunks in
write order, each the JSON encoding of its entry followed by a newline —
and the encoding itself contains no newline, so the file is two lines,
each one independently the valid JSON encoding of one entry; a
non-trivial target directory that does not exist is created by the call;
and a failing write falls back to printing the entry on standard output,
returning normally with the file untouched. -/
theorem c7_file_logger_append (l : FileLogger) (e1 e2 : Json) (st0 : LogFS)
    (hfresh : st0.writes = []) :
    ((l.log e2 true (l.log e1 true st0)).writes
        = [json_dumps e1 ++ "\n", json_dumps e2 ++ "\n"])
    ∧ ('\n' ∉ dumpsChars e1 ∧ '\n' ∉ dumpsChars e2)
    ∧ (∀ (msg : Json) (st : LogFS), os_path_dirname l.file_path ≠ "" →
        os_path_dirname l.file_path ∉ st.dirs →
        os_path_dirname l.file_path ∈ (l.log msg true st).dirs)
    ∧ (∀ (msg : Json) (st : LogFS), l.log msg false st =
        { st with console := st.console ++
            [ConsoleLine.text ("Error writing to log file " ++ l.file_path),
             ConsoleLine.entryFallback msg] }) := by
  have hw : ∀ (msg : Json) (st : LogFS),
      (l.log msg true st).writes = st.writes ++ [json_dumps msg ++ "\n"] := by
    intro msg st
    rw [FileLogger.log, if_pos rfl]
    dsimp only
    split <;> rfl
  refine ⟨?_, ⟨dumpsChars_no_nl e1, dumpsChars_no_nl e2⟩, ?_, ?_⟩
  · rw [hw, hw, hfresh]
    rfl
  · intro msg st hne hmem
    rw [FileLogger.log, if_pos rfl]
    dsimp only
    rw [if_pos (And.intro hne hmem)]
    simp
  · intro msg st
    rw [FileLogger.log, if_neg (by simp)]

/-- C7 witness: the entries of the spec, `a: 1` then `b: 2` written through a
logger targeting `logs/run.json` from an empty filesystem state. -/
theorem c7_file_logger_append_witness :
    (LogFS.writes ⟨[], [], []⟩ = []) ∧
    (((FileLogger.mk "logs/run.json").log (Json.obj [("b", .num 2)]) true
        ((FileLogger.mk "logs/run.json").log (Json.obj [("a", .num 1)]) true ⟨[], [], []⟩)).writes
        = [json_dumps (Json.obj [("a", .num 1)]) ++ "\n",
           json_dumps (Json.obj [("b", .num 2)]) ++ "\n"]
      ∧ ('\n' ∉ dumpsChars (Json.obj [("a", .num 1)])
          ∧ '\n' ∉ dumpsChars (Json.obj [("b", .num 2)]))
      ∧ (∀ (msg : Json) (st : LogFS),
          os_path_dirname (FileLogger.mk "logs/run.json").file_path ≠ "" →
          os_path_dirname (FileLogger.mk "logs/run.json").file_path ∉ st.dirs →
          os_path_dirname (FileLogger.mk "logs/run.json").file_path
            ∈ ((FileLogger.mk "logs/run.json").log msg true st).dirs)
      ∧ (∀ (msg : Json) (st : LogFS), (FileLogger.mk "logs/run.json").log msg false st =
          { st with console := st.console ++
              [ConsoleLine.text ("Error writing to log file "
                  ++ (FileLogger.mk "logs/run.json").file_path),
               ConsoleLine.entryFallback msg] })) :=
  ⟨rfl, c7_file_logger_append (FileLogger.mk "logs/run.json")
    (Json.obj [("a", .num 1)]) (Json.obj [("b", .num 2)]) ⟨[], [], []⟩ rfl⟩

/-- `HTTPEndpointLogger` holds the endpoint URL. -/
structure HTTPEndpointLogger where
  endpoint_url : String

/-- `HTTPEndpointLogger.log`: exactly `requests.post(self.endpoint_url,
json=msg)` with no surrounding `try`; `post` is the request oracle
(`none` = the request returned, `some e` = it raised `e`), and whatever
it raises leaves `log` unhandled. -/
def HTTPEndpointLogger.log (l : HTTPEndpointLogger)
    (post : String → Json → Option String) (msg : Json) : Option String :=
  post l.endpoint_url msg

/-- C8: a failure of the outbound request is not caught inside the HTTP
logger — `log` is the bare request, so any raised failure `e` (for every
kind of failure) propagates into the driver loop, which aborts the run:
the log event of the failing entry is the last event, no tool-result request
is issued, and the run surfaces the failure instead of a result. -/
theorem c8_http_failure_aborts (l : HTTPEndpointLogger)
    (post : String → Json → Option String) (execFn : ShellAction → ExecResult)
    (r : Response) (script : List Response) (cid : String) (a : ShellAction) (e : String)
    (h : firstShellCall r = some (cid, a))
    (hpost : post l.endpoint_url
        (LogEntry.cmdOutput a.command ((execFn a).stdout ++ (execFn a).stderr)).toJson
      = some e) :
    (∀ msg, l.log post msg = post l.endpoint_url msg)
    ∧ driverLoop execFn (fun entry => l.log post entry.toJson) r script
        = ([Event.logged (LogEntry.cmdOutput a.command ((execFn a).stdout ++ (execFn a).stderr))],
           Except.error (AgentError.logFailure e)) := by
  refine ⟨fun _ => rfl, ?_⟩
  rw [driverLoop]
  simp [h, HTTPEndpointLogger.log, hpost]

/-- C8 witness: a request oracle that raises a connection error on every
entry, at a one-call response. -/
theorem c8_http_failure_aborts_witness :
    firstShellCall (Response.mk [OutputItem.localShellCall "call_9"
        ⟨["ls"], none, none, none⟩]) = some ("call_9", ⟨["ls"], none, none, none⟩) ∧
    ((∀ msg, (HTTPEndpointLogger.mk "http://sink.example/log").log
        (fun _ _ => some "ConnectionError") msg
        = (fun _ _ => some "ConnectionError") "http://sink.example/log" msg)
    ∧ driverLoop (fun _ => ⟨0, "a.txt\n", ""⟩)
        (fun entry => (HTTPEndpointLogger.mk "http://sink.example/log").log
          (fun _ _ => some "ConnectionError") entry.toJson)
        (Response.mk [OutputItem.localShellCall "call_9" ⟨["ls"], none, none, none⟩]) []
        = ([Event.logged (LogEntry.cmdOutput ["ls"]
              ((ExecResult.stdout ⟨0, "a.txt\n", ""⟩) ++ (ExecResult.stderr ⟨0, "a.txt\n", ""⟩)))],
           Except.error (AgentError.logFailure "ConnectionError"))) :=
  ⟨by decide,
   c8_http_failure_aborts (HTTPEndpointLogger.mk "http://sink.example/log")
     (fun _ _ => some "ConnectionError") (fun _ => ⟨0, "a.txt\n", ""⟩)
     (Response.mk [OutputItem.localShellCall "call_9" ⟨["ls"], none, none, none⟩]) []
     "call_9" ⟨["ls"], none, none, none⟩ "ConnectionError" (by decide) rfl⟩

/-! ## CLI surface (`parse_args`, `read_command_from_file`, `main`) -/

/-- Python `str.strip()` (over the whitespace the entries here use). -/
def pyStrip (s : String) : String :=
  String.mk (((s.data.dropWhile Char.isWhitespace).reverse.dropWhile
    Char.isWhitespace).reverse)

/-- Errors `main` can raise. `attributeError a` models the Python
`AttributeError` from reading an attribute `a` that `argparse` never
set on the namespace. -/
inductive MainError
  | valueError (msg : String)
  | attributeError (attr : String)
  | fileNotFound (msg : String)
deriving DecidableEq, Repr

/-- Every option string `parse_args` registers: the required
mutually-exclusive group holds only `--command`/`-c`; no command-file
option is defined anywhere. -/
def parse_args_option_strings : List String :=
  ["--command", "-c", "--container", "--sandbox", "--use-modal", "--logger", "-l"]

/-- The namespace `parse_args` produces: exactly the registered
destinations. There is no `file` field. -/
structure Args where
  command : Option String
  container : Option String
  sandbox : Option String
  use_modal : Bool
  logger : Option String
deriving DecidableEq, Repr

/-- `read_command_from_file`: make the path absolute against the current
working directory, fail if the file is missing, read and strip it, and
reject a result that strips to empty. `fs` is the filesystem oracle. -/
def read_command_from_file (fs : String → Option String) (cwd : String)
    (file_path : String) : Except MainError String :=
  let path := if startsWithSlash file_path then file_path
    else os_path_join cwd file_path
  match fs path with
  | none => .error (.fileNotFound ("Command file not found: " ++ file_path))
  | some content =>
    let command := pyStrip content
    if command = "" then .error (.valueError ("Command file is empty: " ++ file_path))
    else .ok command

/-- The command-resolution block of `main`: a truthy `--command` string
is stripped (rejecting one that strips to empty); otherwise `main`
evaluates `args.file` — an attribute `parse_args` never defines — so the
run raises `AttributeError` before `read_command_from_file` is ever
reached. -/
def main_command (args : Args) : Except MainError String :=
  match args.command with
  | some c =>
    if c ≠ "" then
      if pyStrip c = "" then .error (.valueError "Command string is empty")
      else .ok (pyStrip c)
    else .error (.attributeError "file")
  | none => .error (.attributeError "file")

/-- C9 (code bug): the command-file path of the spec cannot be supplied —
`parse_args` registers no `--file`/`-f` option, and the fallback
branch of `main` raises `AttributeError` reading the unset `args.file`; the
supporting routine `read_command_from_file` does reject a
whitespace-only file as empty before anything executes, confirming the
file branch was intended. -/
theorem c9_cli_command_file :
    ("--file" ∉ parse_args_option_strings ∧ "-f" ∉ parse_args_option_strings)
    ∧ main_command (Args.mk none (some "cont") none false none)
        = .error (.attributeError "file")
    ∧ read_command_from_file
        (fun p => if p = "/w/cmd.txt" then some " \n\t " else none) "/w" "cmd.txt"
      = .error (.valueError ("Command file is empty: " ++ "cmd.txt"))
    ∧ read_command_from_file
        (fun p => if p = "/w/cmd.txt" then some " plot it \n" else none) "/w" "cmd.txt"
      = .ok "plot it" := by
  refine ⟨⟨by decide, by decide⟩, rfl, by rfl, by rfl⟩

end CodingAgent
